import Mathlib

/-!
Verification development for the SDG 2 dashboard data module.

The dashboard generates four synthetic tables (undernourishment, food
production, food security, nutrition) for the years 2015 to 2023 and
derives secondary metrics from them (annual growth rate, progress delta,
radar normalisation, average-method composite ranks, pivot matrices).

The randomized draws made by the Python generator (`random.uniform`) are
modelled as explicit parameters bundled in `RandomDraws`; the predicate
`ValidDraws` records the interval from which each draw is taken.  All
record values are rationals; the one real-valued computation (the 1/8
power in the growth-rate formula) is modelled over the reals.
-/

/-- The six regions, in the order they appear in the source list. -/
inductive Region where
  | subSaharanAfrica
  | asia
  | latinAmerica
  | northAmerica
  | europe
  | oceania
deriving DecidableEq

/-- The six crops, in the order they appear in the source list. -/
inductive Crop where
  | cereals
  | fruits
  | vegetables
  | meat
  | dairy
  | fish
deriving DecidableEq

/-- The ten countries, in the order they appear in the source list. -/
inductive Country where
  | kenya
  | india
  | brazil
  | nigeria
  | bangladesh
  | ethiopia
  | tanzania
  | pakistan
  | afghanistan
  | madagascar
deriving DecidableEq

/-- The three nutrition indicators, in source order. -/
inductive Indicator where
  | stunting
  | wasting
  | overweight
deriving DecidableEq

/-- `regions` list from the source. -/
def regions : List Region :=
  [.subSaharanAfrica, .asia, .latinAmerica, .northAmerica, .europe, .oceania]

/-- `crops` list from the source. -/
def crops : List Crop :=
  [.cereals, .fruits, .vegetables, .meat, .dairy, .fish]

/-- `countries` list from the source. -/
def countries : List Country :=
  [.kenya, .india, .brazil, .nigeria, .bangladesh, .ethiopia,
   .tanzania, .pakistan, .afghanistan, .madagascar]

/-- `indicators` list from the source. -/
def indicators : List Indicator :=
  [.stunting, .wasting, .overweight]

/-- `years = list(range(2015, 2024))` from the source. -/
def years : List Int := [2015, 2016, 2017, 2018, 2019, 2020, 2021, 2022, 2023]

/-- One row of the undernourishment table. -/
structure URow where
  year : Int
  region : Region
  rate : ℚ
deriving DecidableEq

/-- One row of the food production table. -/
structure PRow where
  year : Int
  crop : Crop
  production : ℚ
  unit : String
deriving DecidableEq

/-- One row of the food security table. -/
structure FRow where
  year : Int
  country : Country
  level : ℚ
  populationAffected : ℚ
deriving DecidableEq

/-- One row of the nutrition table. -/
structure NRow where
  year : Int
  region : Region
  indicator : Indicator
  rate : ℚ
deriving DecidableEq

/-- The random draws consumed by one run of `generate_sdg2_data`, one
field per `random.uniform` call site, indexed by the loop variables in
scope at that call. -/
structure RandomDraws where
  uNoise : Region → Int → ℚ
  baseProd : Crop → ℚ
  pNoise : Crop → Int → ℚ
  fsBase : Country → Int → ℚ
  fsNoise : Country → Int → ℚ
  popAff : Country → Int → ℚ
  nNoise : Region → Indicator → Int → ℚ

/-- Every draw lies in the interval passed to `random.uniform` at the
corresponding call site of the source. -/
def ValidDraws (d : RandomDraws) : Prop :=
  (∀ rg y, -1 ≤ d.uNoise rg y ∧ d.uNoise rg y ≤ 1) ∧
  (∀ c, 100 ≤ d.baseProd c ∧ d.baseProd c ≤ 500) ∧
  (∀ c y, 0.95 ≤ d.pNoise c y ∧ d.pNoise c y ≤ 1.05) ∧
  (∀ c y, 1.5 ≤ d.fsBase c y ∧ d.fsBase c y ≤ 3.5) ∧
  (∀ c y, -0.2 ≤ d.fsNoise c y ∧ d.fsNoise c y ≤ 0.2) ∧
  (∀ c y, 5 ≤ d.popAff c y ∧ d.popAff c y ≤ 40) ∧
  (∀ rg i y, -0.5 ≤ d.nNoise rg i y ∧ d.nNoise rg i y ≤ 0.5)

/-- A concrete valid assignment of draws (each constant is inside the
interval of its call site), used to instantiate universally quantified
results. -/
def d0 : RandomDraws where
  uNoise := fun _ _ => 0
  baseProd := fun _ => 100
  pNoise := fun _ _ => 1
  fsBase := fun _ _ => 2
  fsNoise := fun _ _ => 0
  popAff := fun _ _ => 5
  nNoise := fun _ _ _ => 0

/-- `base_rate` dictionary of the undernourishment loop. -/
def baseRate : Region → ℚ
  | .subSaharanAfrica => 25
  | .asia => 12
  | .latinAmerica => 8
  | .northAmerica => 3
  | .europe => 2
  | .oceania => 4

/-- `base_rates` nested dictionary of the nutrition loop. -/
def nutritionBase : Indicator → Region → ℚ
  | .stunting, .subSaharanAfrica => 35
  | .stunting, .asia => 25
  | .stunting, .latinAmerica => 15
  | .stunting, .northAmerica => 5
  | .stunting, .europe => 3
  | .stunting, .oceania => 8
  | .wasting, .subSaharanAfrica => 8
  | .wasting, .asia => 12
  | .wasting, .latinAmerica => 4
  | .wasting, .northAmerica => 2
  | .wasting, .europe => 1
  | .wasting, .oceania => 3
  | .overweight, .subSaharanAfrica => 5
  | .overweight, .asia => 8
  | .overweight, .latinAmerica => 12
  | .overweight, .northAmerica => 15
  | .overweight, .europe => 13
  | .overweight, .oceania => 18

/-- The `undernourishment_data` loop:
`rate = max(0, base_rate[region] - 0.5*(year-2015) + uniform(-1,1))`,
appended for each region and each year in loop order. -/
def undernourishmentData (d : RandomDraws) : List URow :=
  regions.flatMap fun region =>
    years.map fun year =>
      { year := year, region := region,
        rate := max 0 (baseRate region + (-0.5 : ℚ) * ((year - 2015 : Int) : ℚ) +
          d.uNoise region year) }

/-- The `food_production_data` loop:
`production = base_production * 1.02**(year-2015) * uniform(0.95,1.05)`
with `base_production = uniform(100,500)` drawn once per crop. -/
def productionData (d : RandomDraws) : List PRow :=
  crops.flatMap fun crop =>
    years.map fun year =>
      { year := year, crop := crop,
        production := d.baseProd crop * (1.02 : ℚ) ^ (year - 2015).toNat *
          d.pNoise crop year,
        unit := "Million Tonnes" }

/-- The `food_security_data` loop:
`level = max(1, min(4, uniform(1.5,3.5) - 0.05*(year-2015) + uniform(-0.2,0.2)))`
and `population_affected = uniform(5,40)`. -/
def foodSecurityData (d : RandomDraws) : List FRow :=
  countries.flatMap fun country =>
    years.map fun year =>
      { year := year, country := country,
        level := max 1 (min 4 (d.fsBase country year +
          (-0.05 : ℚ) * ((year - 2015 : Int) : ℚ) + d.fsNoise country year)),
        populationAffected := d.popAff country year }

/-- The `nutrition_data` loop: trend direction is `0.2` for the
Overweight indicator and `-0.3` otherwise;
`rate = max(0, base_rates[indicator][region] + trend + uniform(-0.5,0.5))`. -/
def nutritionData (d : RandomDraws) : List NRow :=
  regions.flatMap fun region =>
    indicators.flatMap fun indicator =>
      years.map fun year =>
        { year := year, region := region, indicator := indicator,
          rate := max 0 (nutritionBase indicator region +
            (if indicator = Indicator.overweight then (0.2 : ℚ) else (-0.3 : ℚ)) *
              ((year - 2015 : Int) : ℚ) +
            d.nNoise region indicator year) }

/-- Key projection of the undernourishment table. -/
def uKeys (d : RandomDraws) : List (Int × Region) :=
  (undernourishmentData d).map fun r => (r.year, r.region)

/-- Key projection of the production table. -/
def pKeys (d : RandomDraws) : List (Int × Crop) :=
  (productionData d).map fun r => (r.year, r.crop)

/-- Key projection of the food security table. -/
def fKeys (d : RandomDraws) : List (Int × Country) :=
  (foodSecurityData d).map fun r => (r.year, r.country)

/-- Key projection of the nutrition table. -/
def nKeys (d : RandomDraws) : List (Int × Region × Indicator) :=
  (nutritionData d).map fun r => (r.year, r.region, r.indicator)

/-- Failure modes of the derivation layer.  `indexError` models the
untyped Python IndexError that `.iloc[0]` raises on an empty selection;
`insufficientDataError` and `missingKeyError` are the typed errors that
the specification names for a missing endpoint year and for a
duplicated pivot key. -/
inductive DerivationError where
  | indexError
  | insufficientDataError
  | missingKeyError
deriving DecidableEq

/-- `series.iloc[0]`: the first element of a selection, or an
IndexError when the selection is empty. -/
def ilocFirst (xs : List ℚ) : Except DerivationError ℚ :=
  match xs with
  | [] => .error .indexError
  | x :: _ => .ok x

/-- The production column of
`crop_data[crop_data[Year] == year]` where
`crop_data = production_df[production_df[Crop] == crop]`. -/
def cropYearProductions (t : List PRow) (c : Crop) (y : Int) : List ℚ :=
  ((t.filter fun r => decide (r.crop = c)).filter fun r =>
    decide (r.year = y)).map PRow.production

/-- The pair `(first_year, last_year)` read by the growth-rate loop via
`.iloc[0]`, with the left lookup evaluated first, as in the source. -/
def endpointValues (t : List PRow) (c : Crop) : Except DerivationError (ℚ × ℚ) :=
  match ilocFirst (cropYearProductions t c 2015),
        ilocFirst (cropYearProductions t c 2023) with
  | .ok f, .ok l => .ok (f, l)
  | .error e, _ => .error e
  | .ok _, .error e => .error e

/-- `((last_year / first_year) ** (1/8) - 1) * 100`, over the reals. -/
noncomputable def growthFormula (f l : ℚ) : ℝ :=
  (((l : ℝ) / (f : ℝ)) ^ ((1 : ℝ) / 8) - 1) * 100

/-- The growth-rate computation of the Food Production view for one
crop: read both endpoint productions, then apply the formula. -/
noncomputable def annualGrowthRate (t : List PRow) (c : Crop) :
    Except DerivationError ℝ :=
  (endpointValues t c).map fun p => growthFormula p.1 p.2

/-- Multiply every production value of the given crop by `k`, leaving
all other records unchanged. -/
def scaleCrop (k : ℚ) (c : Crop) (t : List PRow) : List PRow :=
  t.map fun r =>
    if r.crop = c then { r with production := k * r.production } else r

/-- `indicator_data[indicator_data[Year] == year]` where
`indicator_data = nutrition_df[nutrition_df[Indicator] == indicator]`. -/
def indicatorYearRows (t : List NRow) (ind : Indicator) (y : Int) : List NRow :=
  (t.filter fun r => decide (r.indicator = ind)).filter fun r =>
    decide (r.year = y)

/-- Column mean of the rate column (`.mean()` on a nonempty selection). -/
def meanRate (t : List NRow) : ℚ :=
  ((t.map NRow.rate).sum) / (t.length : ℚ)

/-- The `change` value of the progress-tracking loop: the subtraction
is `end - start` for the Overweight indicator and `start - end`
otherwise. -/
def progressChange (t : List NRow) (ind : Indicator) : ℚ :=
  if ind = Indicator.overweight
  then meanRate (indicatorYearRows t ind 2023) - meanRate (indicatorYearRows t ind 2015)
  else meanRate (indicatorYearRows t ind 2015) - meanRate (indicatorYearRows t ind 2023)

/-- The `Direction` value of the progress-tracking loop. -/
def progressDirection (t : List NRow) (ind : Indicator) : String :=
  if 0 < progressChange t ind then "Improving" else "Worsening"

/-- The `(Change, Direction)` pair appended by the progress-tracking
loop of the Nutrition Status view. -/
def progressDelta (t : List NRow) (ind : Indicator) : ℚ × String :=
  (progressChange t ind, progressDirection t ind)

/-- The undernourishment-rate column selected by the radar loop:
filter the year first, then the region. -/
def uRateSelection (u : List URow) (rg : Region) (y : Int) : List ℚ :=
  ((u.filter fun r => decide (r.year = y)).filter fun r =>
    decide (r.region = rg)).map URow.rate

/-- The stunting-rate column selected by the radar loop: filter the
year first, then region and indicator together. -/
def stuntRateSelection (n : List NRow) (rg : Region) (y : Int) : List ℚ :=
  ((n.filter fun r => decide (r.year = y)).filter fun r =>
    decide (r.region = rg) && decide (r.indicator = Indicator.stunting)).map NRow.rate

/-- The two data-backed radar axis values of the Regional Comparison
view: `100 - rate * 3` for undernourishment and `100 - rate * 2` for
stunting, each read from the table via `.iloc[0]`. -/
def radarScores (u : List URow) (n : List NRow) (rg : Region) (y : Int) :
    Except DerivationError (ℚ × ℚ) :=
  match ilocFirst (uRateSelection u rg y), ilocFirst (stuntRateSelection n rg y) with
  | .ok ur, .ok sr => .ok (100 - ur * 3, 100 - sr * 2)
  | .error e, _ => .error e
  | .ok _, .error e => .error e

/-- The rank that `Series.rank()` (default average method, ascending)
assigns to the value `v` within the column `xs`: the number of entries
strictly below `v`, plus half of one more than the number of entries
tied with `v`. -/
def rankAvg (xs : List ℚ) (v : ℚ) : ℚ :=
  ((xs.countP fun x => decide (x < v) : ℕ) : ℚ) +
    (((xs.countP fun x => decide (x = v) : ℕ) : ℚ) + 1) / 2

/-- The undernourishment-rate column of the selected year, the column
ranked for `Undernourishment_Rank`. -/
def uRatesOfYear (t : List URow) (y : Int) : List ℚ :=
  (t.filter fun r => decide (r.year = y)).map URow.rate

/-- The stunting-rate column of the selected year, the column ranked
for `Stunting_Rank`. -/
def stuntingRatesOfYear (n : List NRow) (y : Int) : List ℚ :=
  ((n.filter fun r => decide (r.year = y)).filter fun r =>
    decide (r.indicator = Indicator.stunting)).map NRow.rate

/-- `Overall_Score`: the average of the two average-method ranks of a
region whose undernourishment rate is `urate` and whose stunting rate
is `srate` in the selected year. -/
def overallScore (t : List URow) (n : List NRow) (y : Int)
    (urate srate : ℚ) : ℚ :=
  (rankAvg (uRatesOfYear t y) urate + rankAvg (stuntingRatesOfYear n y) srate) / 2

/-- The (Region, Year) key list of an undernourishment table, the
index/column pair passed to `pivot`. -/
def uPairs (t : List URow) : List (Region × Int) :=
  t.map fun r => (r.region, r.year)

/-- The cell of the pivot matrix at a given region and year: the rate
of the first matching record, if any. -/
def lookupCell (t : List URow) (rg : Region) (y : Int) : Option ℚ :=
  (t.find? fun r => decide (r.region = rg) && decide (r.year = y)).map URow.rate

/-- `df.pivot(index=Region, columns=Year, values=rate)`: fails when an
index/column pair is duplicated, and otherwise produces one row per
distinct region and one column per distinct year, with an empty cell
where a pair is absent. -/
def pivotRegionYear (t : List URow) : Except DerivationError (List (List (Option ℚ))) :=
  if (uPairs t).Nodup then
    .ok (((uPairs t).map Prod.fst).dedup.map fun rg =>
      ((uPairs t).map Prod.snd).dedup.map fun y => lookupCell t rg y)
  else .error .missingKeyError

set_option maxRecDepth 8000 in
/-- Claim C1: every run of the generator produces, for each of the four
tables, exactly one record per pair of the cross-product of the years
2015 to 2023 with the fixed category list, and no other records: 54
undernourishment keys, 54 production keys, 90 food-security keys and 162
nutrition keys, each key list without duplicates. -/
theorem generation_keys_exact (d : RandomDraws) :
    (uKeys d = regions.flatMap fun rg => years.map fun y => (y, rg)) ∧
    (uKeys d).Nodup ∧ (uKeys d).length = 54 ∧
    (pKeys d = crops.flatMap fun c => years.map fun y => (y, c)) ∧
    (pKeys d).Nodup ∧ (pKeys d).length = 54 ∧
    (fKeys d = countries.flatMap fun c => years.map fun y => (y, c)) ∧
    (fKeys d).Nodup ∧ (fKeys d).length = 90 ∧
    (nKeys d = regions.flatMap fun rg =>
      indicators.flatMap fun i => years.map fun y => (y, rg, i)) ∧
    (nKeys d).Nodup ∧ (nKeys d).length = 162 := by
  have hu : uKeys d = regions.flatMap fun rg => years.map fun y => (y, rg) := by
    simp [uKeys, undernourishmentData, List.map_flatMap, List.map_map, Function.comp_def]
  have hp : pKeys d = crops.flatMap fun c => years.map fun y => (y, c) := by
    simp [pKeys, productionData, List.map_flatMap, List.map_map, Function.comp_def]
  have hf : fKeys d = countries.flatMap fun c => years.map fun y => (y, c) := by
    simp [fKeys, foodSecurityData, List.map_flatMap, List.map_map, Function.comp_def]
  have hn : nKeys d = regions.flatMap fun rg =>
      indicators.flatMap fun i => years.map fun y => (y, rg, i) := by
    simp [nKeys, nutritionData, List.map_flatMap, List.map_map, Function.comp_def]
  exact ⟨hu, by rw [hu]; decide, by rw [hu]; decide,
         hp, by rw [hp]; decide, by rw [hp]; decide,
         hf, by rw [hf]; decide, by rw [hf]; decide,
         hn, by rw [hn]; decide, by rw [hn]; decide⟩

/-- Instance of `generation_keys_exact` at the concrete draw assignment
`d0`. -/
theorem generation_keys_exact_witness :
    (uKeys d0 = regions.flatMap fun rg => years.map fun y => (y, rg)) ∧
    (uKeys d0).Nodup ∧ (uKeys d0).length = 54 ∧
    (pKeys d0 = crops.flatMap fun c => years.map fun y => (y, c)) ∧
    (pKeys d0).Nodup ∧ (pKeys d0).length = 54 ∧
    (fKeys d0 = countries.flatMap fun c => years.map fun y => (y, c)) ∧
    (fKeys d0).Nodup ∧ (fKeys d0).length = 90 ∧
    (nKeys d0 = regions.flatMap fun rg =>
      indicators.flatMap fun i => years.map fun y => (y, rg, i)) ∧
    (nKeys d0).Nodup ∧ (nKeys d0).length = 162 :=
  generation_keys_exact d0

/-- The concrete draw assignment `d0` satisfies all the interval bounds. -/
theorem validDraws_d0 : ValidDraws d0 :=
  ⟨fun _ _ => ⟨by norm_num [d0], by norm_num [d0]⟩,
   fun _ => ⟨by norm_num [d0], by norm_num [d0]⟩,
   fun _ _ => ⟨by norm_num [d0], by norm_num [d0]⟩,
   fun _ _ => ⟨by norm_num [d0], by norm_num [d0]⟩,
   fun _ _ => ⟨by norm_num [d0], by norm_num [d0]⟩,
   fun _ _ => ⟨by norm_num [d0], by norm_num [d0]⟩,
   fun _ _ _ => ⟨by norm_num [d0], by norm_num [d0]⟩⟩

/-- Claim C2: in every run with draws inside the documented intervals,
every undernourishment rate and nutrition rate is nonnegative, every
production value is strictly positive, every affected population is
nonnegative, and every food security level lies in the interval from 1
to 4. -/
theorem generation_value_ranges (d : RandomDraws) (hd : ValidDraws d) :
    (∀ r ∈ undernourishmentData d, 0 ≤ r.rate) ∧
    (∀ r ∈ productionData d, 0 < r.production) ∧
    (∀ r ∈ foodSecurityData d,
      0 ≤ r.populationAffected ∧ 1 ≤ r.level ∧ r.level ≤ 4) ∧
    (∀ r ∈ nutritionData d, 0 ≤ r.rate) := by
  obtain ⟨-, hbase, hpn, -, -, hpa, -⟩ := hd
  refine ⟨?_, ?_, ?_, ?_⟩
  · intro r hr
    simp only [undernourishmentData, List.mem_flatMap, List.mem_map] at hr
    obtain ⟨rg, -, y, -, rfl⟩ := hr
    exact le_max_left 0 _
  · intro r hr
    simp only [productionData, List.mem_flatMap, List.mem_map] at hr
    obtain ⟨c, -, y, -, rfl⟩ := hr
    have h1 : (0 : ℚ) < d.baseProd c := lt_of_lt_of_le (by norm_num) (hbase c).1
    have h2 : (0 : ℚ) < (1.02 : ℚ) ^ (y - 2015).toNat := pow_pos (by norm_num) _
    have h3 : (0 : ℚ) < d.pNoise c y := lt_of_lt_of_le (by norm_num) (hpn c y).1
    exact mul_pos (mul_pos h1 h2) h3
  · intro r hr
    simp only [foodSecurityData, List.mem_flatMap, List.mem_map] at hr
    obtain ⟨c, -, y, -, rfl⟩ := hr
    exact ⟨le_trans (by norm_num) (hpa c y).1, le_max_left 1 _,
      max_le (by norm_num) (min_le_left 4 _)⟩
  · intro r hr
    simp only [nutritionData, List.mem_flatMap, List.mem_map] at hr
    obtain ⟨rg, -, i, -, y, -, rfl⟩ := hr
    exact le_max_left 0 _

/-- Instance of `generation_value_ranges` at `d0` and the first record
of the undernourishment table. -/
theorem generation_value_ranges_witness :
    (0 : ℚ) ≤ (URow.mk 2015 Region.subSaharanAfrica
      (max 0 (baseRate Region.subSaharanAfrica +
        (-0.5 : ℚ) * (((2015 : Int) - 2015 : Int) : ℚ) +
        d0.uNoise Region.subSaharanAfrica 2015))).rate :=
  (generation_value_ranges d0 validDraws_d0).1 _
    (List.mem_flatMap.mpr ⟨Region.subSaharanAfrica, by decide,
      List.mem_map.mpr ⟨(2015 : Int), by decide, rfl⟩⟩)

/-- Claim C10: with draws inside the documented intervals, every food
security level is at most 3.7, hence strictly below 4: the upper clamp
never takes effect and level 4 (Emergency) is never attained. -/
theorem foodSecurity_level_below_emergency (d : RandomDraws) (hd : ValidDraws d) :
    ∀ r ∈ foodSecurityData d, r.level ≤ 37/10 ∧ r.level < 4 := by
  obtain ⟨-, -, -, hfb, hfn, -, -⟩ := hd
  intro r hr
  simp only [foodSecurityData, List.mem_flatMap, List.mem_map] at hr
  obtain ⟨c, -, y, hy, rfl⟩ := hr
  have htrend : (-0.05 : ℚ) * ((y - 2015 : Int) : ℚ) ≤ 0 := by
    fin_cases hy <;> norm_num
  have hx : d.fsBase c y + (-0.05 : ℚ) * ((y - 2015 : Int) : ℚ) +
      d.fsNoise c y ≤ 37/10 := by
    have h1 := (hfb c y).2
    have h2 := (hfn c y).2
    linarith
  have hlev : max 1 (min 4 (d.fsBase c y + (-0.05 : ℚ) * ((y - 2015 : Int) : ℚ) +
      d.fsNoise c y)) ≤ 37/10 :=
    max_le (by norm_num) (le_trans (min_le_right 4 _) hx)
  exact ⟨hlev, lt_of_le_of_lt hlev (by norm_num)⟩

/-- Instance of `foodSecurity_level_below_emergency` at `d0` and the
first record of the food security table. -/
theorem foodSecurity_level_below_emergency_witness :
    (FRow.mk 2015 Country.kenya
      (max 1 (min 4 (d0.fsBase Country.kenya 2015 +
        (-0.05 : ℚ) * (((2015 : Int) - 2015 : Int) : ℚ) +
        d0.fsNoise Country.kenya 2015)))
      (d0.popAff Country.kenya 2015)).level ≤ 37/10 ∧
    (FRow.mk 2015 Country.kenya
      (max 1 (min 4 (d0.fsBase Country.kenya 2015 +
        (-0.05 : ℚ) * (((2015 : Int) - 2015 : Int) : ℚ) +
        d0.fsNoise Country.kenya 2015)))
      (d0.popAff Country.kenya 2015)).level < 4 :=
  foodSecurity_level_below_emergency d0 validDraws_d0 _
    (List.mem_flatMap.mpr ⟨Country.kenya, by decide,
      List.mem_map.mpr ⟨(2015 : Int), by decide, rfl⟩⟩)

/-- Claim C3: the progress-tracking loop computes mean rate at 2015
minus mean rate at 2023 for Stunting and Wasting, the reversed
subtraction for Overweight, and classifies the change as Improving
exactly when it is positive (Worsening otherwise); consequently an
Overweight series whose mean rate increases from 2015 to 2023 is
classified Improving. -/
theorem progressDelta_spec (t : List NRow) :
    ((progressDelta t Indicator.stunting).1 =
      meanRate (indicatorYearRows t Indicator.stunting 2015) -
        meanRate (indicatorYearRows t Indicator.stunting 2023)) ∧
    ((progressDelta t Indicator.wasting).1 =
      meanRate (indicatorYearRows t Indicator.wasting 2015) -
        meanRate (indicatorYearRows t Indicator.wasting 2023)) ∧
    ((progressDelta t Indicator.overweight).1 =
      meanRate (indicatorYearRows t Indicator.overweight 2023) -
        meanRate (indicatorYearRows t Indicator.overweight 2015)) ∧
    (∀ i, (progressDelta t i).2 = "Improving" ↔ 0 < (progressDelta t i).1) ∧
    (meanRate (indicatorYearRows t Indicator.overweight 2015) <
        meanRate (indicatorYearRows t Indicator.overweight 2023) →
      (progressDelta t Indicator.overweight).2 = "Improving") := by
  have hiff : ∀ i, (progressDelta t i).2 = "Improving" ↔ 0 < (progressDelta t i).1 := by
    intro i
    show progressDirection t i = "Improving" ↔ 0 < progressChange t i
    unfold progressDirection
    by_cases h : 0 < progressChange t i
    · simp [h]
    · simp [h]
  refine ⟨rfl, rfl, rfl, hiff, fun hup => ?_⟩
  refine (hiff Indicator.overweight).mpr ?_
  have hch : progressChange t Indicator.overweight =
      meanRate (indicatorYearRows t Indicator.overweight 2023) -
        meanRate (indicatorYearRows t Indicator.overweight 2015) := by
    simp [progressChange]
  show 0 < progressChange t Indicator.overweight
  rw [hch]
  linarith

/-- Instance of `progressDelta_spec` at a concrete two-row Overweight
table whose rate rises from 5 in 2015 to 10 in 2023. -/
theorem progressDelta_spec_witness :
    (progressDelta
      [NRow.mk 2015 Region.asia Indicator.overweight 5,
       NRow.mk 2023 Region.asia Indicator.overweight 10]
      Indicator.overweight).2 = "Improving" :=
  (progressDelta_spec
    [NRow.mk 2015 Region.asia Indicator.overweight 5,
     NRow.mk 2023 Region.asia Indicator.overweight 10]).2.2.2.2
    (by
      have h15 : indicatorYearRows
          [NRow.mk 2015 Region.asia Indicator.overweight 5,
           NRow.mk 2023 Region.asia Indicator.overweight 10]
          Indicator.overweight 2015 =
          [NRow.mk 2015 Region.asia Indicator.overweight 5] := rfl
      have h23 : indicatorYearRows
          [NRow.mk 2015 Region.asia Indicator.overweight 5,
           NRow.mk 2023 Region.asia Indicator.overweight 10]
          Indicator.overweight 2023 =
          [NRow.mk 2023 Region.asia Indicator.overweight 10] := rfl
      rw [h15, h23]
      norm_num [meanRate])

/-- Claim C4, counterexample: on a table whose only Cereals record is
for 2023, the growth-rate computation fails with the untyped positional
IndexError of `.iloc[0]`, which is not the typed
`insufficientDataError` the claim asserts. -/
theorem growthRate_missing_endpoint_cex :
    annualGrowthRate [PRow.mk 2023 Crop.cereals 300 "Million Tonnes"] Crop.cereals =
      .error DerivationError.indexError ∧
    (Except.error DerivationError.indexError : Except DerivationError ℝ) ≠
      .error DerivationError.insufficientDataError := by
  exact ⟨rfl, by simp⟩

/-- Claim C4 (amended): whenever the 2015 value or the 2023 value for
the crop is absent, the growth-rate computation fails with the untyped
IndexError raised by `.iloc[0]` on an empty selection, not with the
typed `insufficientDataError`. -/
theorem growthRate_missing_endpoint (t : List PRow) (c : Crop)
    (h : cropYearProductions t c 2015 = [] ∨ cropYearProductions t c 2023 = []) :
    annualGrowthRate t c = .error DerivationError.indexError := by
  rcases h with h | h
  · simp [annualGrowthRate, endpointValues, h, ilocFirst, Except.map]
  · cases h15 : cropYearProductions t c 2015 with
    | nil => simp [annualGrowthRate, endpointValues, h15, ilocFirst, Except.map]
    | cons a as => simp [annualGrowthRate, endpointValues, h15, h, ilocFirst, Except.map]

/-- Instance of `growthRate_missing_endpoint` at a table whose only
Fruits record is for 2015, so that the 2023 endpoint is absent. -/
theorem growthRate_missing_endpoint_witness :
    annualGrowthRate [PRow.mk 2015 Crop.fruits 100 "Million Tonnes"] Crop.fruits =
      .error DerivationError.indexError :=
  growthRate_missing_endpoint [PRow.mk 2015 Crop.fruits 100 "Million Tonnes"]
    Crop.fruits (Or.inr rfl)

/-- Claim C5, counterexample: at an undernourishment rate of 40 and a
stunting rate of 60 the radar values are both -20, outside the interval
from 0 to 100, so the source applies no clamp. -/
theorem radarScores_clamp_cex :
    radarScores [URow.mk 2023 Region.subSaharanAfrica 40]
      [NRow.mk 2023 Region.subSaharanAfrica Indicator.stunting 60]
      Region.subSaharanAfrica 2023 = .ok (-20, -20) ∧
    ¬ (0 : ℚ) ≤ -20 := by
  constructor
  · have h : radarScores [URow.mk 2023 Region.subSaharanAfrica 40]
        [NRow.mk 2023 Region.subSaharanAfrica Indicator.stunting 60]
        Region.subSaharanAfrica 2023 =
        .ok (100 - 40 * 3, 100 - 60 * 2) := rfl
    rw [h]
    exact congrArg Except.ok (by norm_num [Prod.ext_iff])
  · norm_num

/-- Claim C5 (amended): the radar computation maps the selected
undernourishment rate to `100 - rate * 3` and the selected stunting
rate to `100 - rate * 2` with no clamping, so the returned axis values
can fall outside the interval from 0 to 100. -/
theorem radarScores_formula (u : List URow) (n : List NRow)
    (rg : Region) (y : Int) (ur sr : ℚ) (us ss : List ℚ)
    (hu : uRateSelection u rg y = ur :: us)
    (hn : stuntRateSelection n rg y = sr :: ss) :
    radarScores u n rg y = .ok (100 - ur * 3, 100 - sr * 2) := by
  simp [radarScores, hu, hn, ilocFirst]

/-- Instance of `radarScores_formula` at a one-region table with
undernourishment rate 10 and stunting rate 20. -/
theorem radarScores_formula_witness :
    radarScores [URow.mk 2023 Region.europe 10]
      [NRow.mk 2023 Region.europe Indicator.stunting 20]
      Region.europe 2023 = .ok (100 - 10 * 3, 100 - 20 * 2) :=
  radarScores_formula [URow.mk 2023 Region.europe 10]
    [NRow.mk 2023 Region.europe Indicator.stunting 20]
    Region.europe 2023 10 20 [] [] rfl rfl

/-- Claim C6: on a production table holding exactly one value for the
crop in 2015 and exactly one in 2023, the growth-rate computation
returns `((value_at(2023) / value_at(2015)) ** (1/8) - 1) * 100`. -/
theorem growthRate_formula (t : List PRow) (c : Crop) (v15 v23 : ℚ)
    (h15 : cropYearProductions t c 2015 = [v15])
    (h23 : cropYearProductions t c 2023 = [v23]) :
    annualGrowthRate t c =
      .ok ((((v23 : ℝ) / (v15 : ℝ)) ^ ((1 : ℝ) / 8) - 1) * 100) := by
  simp [annualGrowthRate, endpointValues, h15, h23, ilocFirst, Except.map,
    growthFormula]

/-- Instance of `growthRate_formula` at a two-row Cereals table with
productions 100 in 2015 and 200 in 2023. -/
theorem growthRate_formula_witness :
    annualGrowthRate
      [PRow.mk 2015 Crop.cereals 100 "Million Tonnes",
       PRow.mk 2023 Crop.cereals 200 "Million Tonnes"] Crop.cereals =
      .ok (((((200 : ℚ) : ℝ) / ((100 : ℚ) : ℝ)) ^ ((1 : ℝ) / 8) - 1) * 100) :=
  growthRate_formula
    [PRow.mk 2015 Crop.cereals 100 "Million Tonnes",
     PRow.mk 2023 Crop.cereals 200 "Million Tonnes"]
    Crop.cereals 100 200 rfl rfl

/-- Scaling the production values of one crop rescales the selected
endpoint column of that crop and touches nothing else. -/
theorem cropYearProductions_scale (k : ℚ) (c : Crop) (y : Int) (t : List PRow) :
    cropYearProductions (scaleCrop k c t) c y =
      (cropYearProductions t c y).map fun v => k * v := by
  induction t with
  | nil => rfl
  | cons r rs ih =>
    by_cases hc : r.crop = c
    · by_cases hy : r.year = y
      · simpa [cropYearProductions, scaleCrop, List.filter_cons, hc, hy] using ih
      · simpa [cropYearProductions, scaleCrop, List.filter_cons, hc, hy] using ih
    · simpa [cropYearProductions, scaleCrop, List.filter_cons, hc] using ih

/-- The growth formula is invariant under rescaling both endpoints by a
positive constant. -/
theorem growthFormula_scale (k f l : ℚ) (hk : 0 < k) :
    growthFormula (k * f) (k * l) = growthFormula f l := by
  have hk0 : ((k : ℚ) : ℝ) ≠ 0 := by
    exact_mod_cast ne_of_gt hk
  unfold growthFormula
  have hq : ((k * l : ℚ) : ℝ) / ((k * f : ℚ) : ℝ) = ((l : ℚ) : ℝ) / ((f : ℚ) : ℝ) := by
    push_cast
    rw [mul_div_mul_left _ _ hk0]
  rw [hq]

/-- Claim C7: the growth-rate computation is scale-invariant: when both
endpoint years are present for the crop, multiplying every production
value of that crop by a positive constant leaves the result unchanged. -/
theorem growthRate_scale_invariant (t : List PRow) (c : Crop) (k : ℚ)
    (hk : 0 < k)
    (h15 : cropYearProductions t c 2015 ≠ [])
    (h23 : cropYearProductions t c 2023 ≠ []) :
    annualGrowthRate (scaleCrop k c t) c = annualGrowthRate t c := by
  obtain ⟨f, fs, hf⟩ : ∃ a as, cropYearProductions t c 2015 = a :: as := by
    cases hx : cropYearProductions t c 2015 with
    | nil => exact absurd hx h15
    | cons a as => exact ⟨a, as, rfl⟩
  obtain ⟨l, ls, hl⟩ : ∃ a as, cropYearProductions t c 2023 = a :: as := by
    cases hx : cropYearProductions t c 2023 with
    | nil => exact absurd hx h23
    | cons a as => exact ⟨a, as, rfl⟩
  simp only [annualGrowthRate, endpointValues, cropYearProductions_scale,
    hf, hl, List.map_cons, ilocFirst, Except.map]
  exact congrArg Except.ok (growthFormula_scale k f l hk)

/-- Instance of `growthRate_scale_invariant` at the two-row Cereals
table and scale factor 2. -/
theorem growthRate_scale_invariant_witness :
    annualGrowthRate
      (scaleCrop 2 Crop.cereals
        [PRow.mk 2015 Crop.cereals 100 "Million Tonnes",
         PRow.mk 2023 Crop.cereals 200 "Million Tonnes"]) Crop.cereals =
    annualGrowthRate
      [PRow.mk 2015 Crop.cereals 100 "Million Tonnes",
       PRow.mk 2023 Crop.cereals 200 "Million Tonnes"] Crop.cereals :=
  growthRate_scale_invariant
    [PRow.mk 2015 Crop.cereals 100 "Million Tonnes",
     PRow.mk 2023 Crop.cereals 200 "Million Tonnes"]
    Crop.cereals 2 (by norm_num) (by decide) (by decide)

/-- Counting entries below `a` together with entries tied with `a`
never exceeds the count of entries below a larger value `b`. -/
theorem countP_below_le (xs : List ℚ) (a b : ℚ) (hab : a < b) :
    (xs.countP fun x => decide (x < a)) + (xs.countP fun x => decide (x = a)) ≤
      xs.countP fun x => decide (x < b) := by
  induction xs with
  | nil => simp
  | cons x l ih =>
    simp only [List.countP_cons]
    by_cases h1 : x < a
    · have h2 : ¬ x = a := fun he => absurd (he ▸ h1) (lt_irrefl a)
      have h3 : x < b := lt_trans h1 hab
      simp [h1, h2, h3]
      omega
    · by_cases h2 : x = a
      · have h3 : x < b := lt_of_eq_of_lt h2 hab
        simp [h1, h2, h3, hab]
        omega
      · by_cases h3 : x < b <;> simp [h1, h2, h3] <;> omega

/-- A value occurring in the column has at least one tie (itself). -/
theorem countP_self_pos (xs : List ℚ) (a : ℚ) (ha : a ∈ xs) :
    0 < xs.countP fun x => decide (x = a) :=
  List.countP_pos_iff.mpr ⟨a, ha, by simp⟩

/-- Average-method ranking is strictly monotone on values occurring in
the column. -/
theorem rankAvg_strict_mono (xs : List ℚ) (a b : ℚ)
    (ha : a ∈ xs) (hb : b ∈ xs) (hab : a < b) :
    rankAvg xs a < rankAvg xs b := by
  have h1 := countP_below_le xs a b hab
  have h2 := countP_self_pos xs a ha
  have h3 := countP_self_pos xs b hb
  unfold rankAvg
  have c1 : ((xs.countP fun x => decide (x < a) : ℕ) : ℚ) +
      ((xs.countP fun x => decide (x = a) : ℕ) : ℚ) ≤
      ((xs.countP fun x => decide (x < b) : ℕ) : ℚ) := by
    exact_mod_cast h1
  have c2 : (1 : ℚ) ≤ ((xs.countP fun x => decide (x = a) : ℕ) : ℚ) := by
    exact_mod_cast h2
  have c3 : (1 : ℚ) ≤ ((xs.countP fun x => decide (x = b) : ℕ) : ℚ) := by
    exact_mod_cast h3
  linarith

/-- Claim C8: for two regions present in both tables in the same year,
if the first region has strictly smaller undernourishment and stunting
rates, its overall score (the average of the two average-method ranks)
is strictly smaller. -/
theorem compositeRank_dominance (t : List URow) (n : List NRow) (y : Int)
    (a b : Region) (ua ub sa sb : ℚ)
    (hA : URow.mk y a ua ∈ t) (hB : URow.mk y b ub ∈ t)
    (hsA : NRow.mk y a Indicator.stunting sa ∈ n)
    (hsB : NRow.mk y b Indicator.stunting sb ∈ n)
    (hu : ua < ub) (hs : sa < sb) :
    overallScore t n y ua sa < overallScore t n y ub sb := by
  have hua : ua ∈ uRatesOfYear t y :=
    List.mem_map.mpr ⟨URow.mk y a ua, List.mem_filter.mpr ⟨hA, by simp⟩, rfl⟩
  have hub : ub ∈ uRatesOfYear t y :=
    List.mem_map.mpr ⟨URow.mk y b ub, List.mem_filter.mpr ⟨hB, by simp⟩, rfl⟩
  have hsa : sa ∈ stuntingRatesOfYear n y :=
    List.mem_map.mpr ⟨NRow.mk y a Indicator.stunting sa,
      List.mem_filter.mpr ⟨List.mem_filter.mpr ⟨hsA, by simp⟩, by simp⟩, rfl⟩
  have hsb : sb ∈ stuntingRatesOfYear n y :=
    List.mem_map.mpr ⟨NRow.mk y b Indicator.stunting sb,
      List.mem_filter.mpr ⟨List.mem_filter.mpr ⟨hsB, by simp⟩, by simp⟩, rfl⟩
  have r1 := rankAvg_strict_mono (uRatesOfYear t y) ua ub hua hub hu
  have r2 := rankAvg_strict_mono (stuntingRatesOfYear n y) sa sb hsa hsb hs
  unfold overallScore
  linarith

/-- Instance of `compositeRank_dominance` on concrete two-region
tables for 2023. -/
theorem compositeRank_dominance_witness :
    overallScore
      [URow.mk 2023 Region.asia 5, URow.mk 2023 Region.subSaharanAfrica 20]
      [NRow.mk 2023 Region.asia Indicator.stunting 10,
       NRow.mk 2023 Region.subSaharanAfrica Indicator.stunting 30]
      2023 5 10 <
    overallScore
      [URow.mk 2023 Region.asia 5, URow.mk 2023 Region.subSaharanAfrica 20]
      [NRow.mk 2023 Region.asia Indicator.stunting 10,
       NRow.mk 2023 Region.subSaharanAfrica Indicator.stunting 30]
      2023 20 30 :=
  compositeRank_dominance
    [URow.mk 2023 Region.asia 5, URow.mk 2023 Region.subSaharanAfrica 20]
    [NRow.mk 2023 Region.asia Indicator.stunting 10,
     NRow.mk 2023 Region.subSaharanAfrica Indicator.stunting 30]
    2023 Region.asia Region.subSaharanAfrica 5 20 10 30
    (List.mem_cons_self _ _)
    (List.mem_cons_of_mem _ (List.mem_cons_self _ _))
    (List.mem_cons_self _ _)
    (List.mem_cons_of_mem _ (List.mem_cons_self _ _))
    (by norm_num) (by norm_num)

set_option maxRecDepth 8000 in
/-- Claim C9: on any table whose (Region, Year) pairs are unique the
pivot never raises the missing-key error, and on every generated
undernourishment table it produces a complete 6 by 9 matrix with no
missing cell. -/
theorem pivot_unique_safe (t : List URow) (d : RandomDraws)
    (h : (uPairs t).Nodup) :
    (∃ m, pivotRegionYear t = .ok m) ∧
    (∃ m, pivotRegionYear (undernourishmentData d) = .ok m ∧
      m.length = 6 ∧
      ∀ row ∈ m, row.length = 9 ∧ ∀ cell ∈ row, cell.isSome = true) := by
  constructor
  · exact ⟨((uPairs t).map Prod.fst).dedup.map fun rg =>
      ((uPairs t).map Prod.snd).dedup.map fun y => lookupCell t rg y,
      by simp only [pivotRegionYear, if_pos h]⟩
  · have hpairs : uPairs (undernourishmentData d) =
        regions.flatMap fun rg => years.map fun y => (rg, y) := by
      simp [uPairs, undernourishmentData, List.map_flatMap, List.map_map,
        Function.comp_def]
    have hnd : (uPairs (undernourishmentData d)).Nodup := by
      rw [hpairs]; decide
    have hfst : ((uPairs (undernourishmentData d)).map Prod.fst).dedup = regions := by
      rw [hpairs]; decide
    have hsnd : ((uPairs (undernourishmentData d)).map Prod.snd).dedup = years := by
      rw [hpairs]; decide
    refine ⟨regions.map fun rg =>
      years.map fun y => lookupCell (undernourishmentData d) rg y, ?_, ?_, ?_⟩
    · simp only [pivotRegionYear, if_pos hnd, hfst, hsnd]
    · simp [regions]
    · intro row hrow
      simp only [List.mem_map] at hrow
      obtain ⟨rg, hrg, rfl⟩ := hrow
      refine ⟨by simp [years], ?_⟩
      intro cell hcell
      simp only [List.mem_map] at hcell
      obtain ⟨y, hy, rfl⟩ := hcell
      have hex : ∃ r ∈ undernourishmentData d,
          (decide (r.region = rg) && decide (r.year = y)) = true :=
        ⟨_, List.mem_flatMap.mpr ⟨rg, hrg, List.mem_map.mpr ⟨y, hy, rfl⟩⟩, by simp⟩
      simpa [lookupCell] using List.find?_isSome.mpr hex

/-- Instance of `pivot_unique_safe` at a singleton table with unique
keys and the concrete draw assignment `d0`. -/
theorem pivot_unique_safe_witness :
    (∃ m, pivotRegionYear [URow.mk 2015 Region.asia 7] = .ok m) ∧
    (∃ m, pivotRegionYear (undernourishmentData d0) = .ok m ∧
      m.length = 6 ∧
      ∀ row ∈ m, row.length = 9 ∧ ∀ cell ∈ row, cell.isSome = true) :=
  pivot_unique_safe [URow.mk 2015 Region.asia 7] d0 (by decide)
